import Mathlib

/-!
Verification of the camera-relay systray controller
(`webcam-fix-book5/camera-relay/camera-relay-systray.py`).

The program is glue between a GLib main loop and an external CLI binary
(`/usr/local/bin/camera-relay`).  We embed its non-GUI logic shallowly:

* the outcome of each external subprocess invocation is an explicit input
  (an inductive datatype), since the external binary is outside the program;
* the result of the standard-library JSON parser `json.loads` applied to the
  captured standard output is likewise carried as data: `Option Json`, where
  `none` means the text was rejected (`json.JSONDecodeError`);
* Python exceptions are modelled with `Except`;
* GUI and scheduling side effects (dialogs, `subprocess.Popen`,
  `GLib.timeout_add`, `GLib.idle_add`) are reified as an effect list in the
  order the program issues them.
-/

namespace CameraRelaySystray

/-- Python/JSON values, as produced by `json.loads`.  Object fields are kept
in insertion order; `json.loads` yields a `dict`, whose keys are unique. -/
inductive Json where
  | null
  | bool (b : Bool)
  | num (n : Int)
  | str (s : String)
  | arr (elems : List Json)
  | obj (fields : List (String × Json))
  deriving Repr

/-- Python truthiness (`bool(v)`) for a JSON-shaped value: `None`, `False`,
`0`, `""`, `[]`, `{}` are falsy, everything else truthy. -/
def truthy : Json → Bool
  | .null => false
  | .bool b => b
  | .num n => n != 0
  | .str s => s != ""
  | .arr elems => !elems.isEmpty
  | .obj fields => !fields.isEmpty

/-- Python `dict.get(key, default)` over the field list of a JSON object. -/
def dictGet (fields : List (String × Json)) (key : String) (dflt : Json) : Json :=
  match fields with
  | [] => dflt
  | (k, v) :: rest => if k = key then v else dictGet rest key dflt

/-- The Python exceptions this program can raise or catch. -/
inductive PyExn where
  | timeoutExpired
  | jsonDecodeError
  | fileNotFoundError
  | attributeError
  deriving Repr, DecidableEq

/-- Path of the external binary (`RELAY_CMD` in the source). -/
def RELAY_CMD : String := "/usr/local/bin/camera-relay"

/-- Outcome of `subprocess.run([RELAY_CMD, "status", "--json"], capture_output=True,
text=True, timeout=5)` followed by `json.loads(result.stdout)`.
`completed rc stdoutJson` means the process finished with return code `rc` and
`stdoutJson` is the JSON parse of its standard output (`none` when parsing
raises `json.JSONDecodeError`).  `timeoutExpired` is `subprocess.TimeoutExpired`;
`fileNotFound` is `FileNotFoundError` (the relay binary is missing). -/
inductive StatusQueryOutcome where
  | completed (returncode : Int) (stdoutJson : Option Json)
  | timeoutExpired
  | fileNotFound
  deriving Repr

/-- The fallback dictionary literal in `_get_status`:
`{"running": False, "persistent": False, "camera": "", "device": ""}`. -/
def defaultStatusDict : Json :=
  .obj [("running", .bool false), ("persistent", .bool false),
        ("camera", .str ""), ("device", .str "")]

/-- The body of the `try:` block in `_get_status`: run the status query and
parse its standard output, propagating the exceptions that can occur. -/
def statusQueryRun : StatusQueryOutcome → Except PyExn Json
  | .completed _ (some j) => .ok j
  | .completed _ none => .error .jsonDecodeError
  | .timeoutExpired => .error .timeoutExpired
  | .fileNotFound => .error .fileNotFoundError

/-- The exception classes listed in the `except` clause of `_get_status`:
`(subprocess.TimeoutExpired, json.JSONDecodeError, FileNotFoundError)`. -/
def statusCaughtExns : List PyExn :=
  [.timeoutExpired, .jsonDecodeError, .fileNotFoundError]

/-- `CameraRelaySystray._get_status`: return the parsed standard output, or the
default dictionary when one of the three listed exceptions is raised.  Any
other exception would escape (none can arise here, which the except-clause
test makes explicit). -/
def get_status (o : StatusQueryOutcome) : Except PyExn Json :=
  match statusQueryRun o with
  | .ok j => .ok j
  | .error e => if e ∈ statusCaughtExns then .ok defaultStatusDict else .error e

/-- The mutable fields `self.running` / `self.persistent`.  The source stores
the raw values returned by `dict.get`, so the fields hold JSON values;
truthiness is applied at each use site, as in Python. -/
structure ControllerState where
  running : Json
  persistent : Json
  deriving Repr

/-- Field values set in `__init__`: `self.running = False`,
`self.persistent = False`. -/
def initState : ControllerState :=
  { running := .bool false, persistent := .bool false }

/-- The widget labels and icon name written by `_poll_status`. -/
structure PollView where
  toggleLabel : String
  persistentLabel : String
  statusLabel : String
  icon : String
  deriving Repr, DecidableEq

/-- Everything `_poll_status` produces: the new controller state, the
presentation update, and its Python return value (`True`, meaning GLib keeps
the periodic source alive). -/
structure PollResult where
  state : ControllerState
  view : PollView
  keepPolling : Bool
  deriving Repr

/-- `CameraRelaySystray._poll_status`: fetch the status, store
`status.get("running", False)` and `status.get("persistent", False)`, update
labels and icon from the stored values, and return `True`.  When the value
returned by `_get_status` is not a `dict` (any successfully parsed JSON value
that is not an object), the attribute access `status.get` raises
`AttributeError`, which nothing catches. -/
def poll_status (o : StatusQueryOutcome) : Except PyExn PollResult :=
  match get_status o with
  | .error e => .error e
  | .ok status =>
    match status with
    | .obj fields =>
      let running := dictGet fields "running" (.bool false)
      let persistent := dictGet fields "persistent" (.bool false)
      let toggleLabel := if truthy running then "Stop Relay" else "Start Relay"
      let persistentLabel :=
        if truthy persistent then "Disable Persistent Mode" else "Enable Persistent Mode"
      let stateWord := if truthy running then "RUNNING" else "STOPPED"
      let persistWord := if truthy persistent then " (persistent)" else ""
      let icon :=
        if truthy running then "camera-video-symbolic" else "camera-disabled-symbolic"
      .ok { state := { running := running, persistent := persistent },
            view := { toggleLabel := toggleLabel,
                      persistentLabel := persistentLabel,
                      statusLabel := "Status: " ++ stateWord ++ persistWord,
                      icon := icon },
            keepPolling := true }
    | _ => .error .attributeError

/-- A Gtk menu item as this program manipulates it: its label text and its
sensitivity (an insensitive item cannot be activated). -/
structure MenuItem where
  label : String
  sensitive : Bool
  deriving Repr, DecidableEq

/-- Outcome of `subprocess.run([RELAY_CMD, action], capture_output=True,
text=True, timeout=15)` inside `_run_action`: normal completion with a return
code and captured output texts, `subprocess.TimeoutExpired`, or any other
exception `e` (carrying `str(e)`). -/
inductive ActionOutcome where
  | completed (returncode : Int) (stdout : String) (stderr : String)
  | timeoutExpired
  | raised (msg : String)
  deriving Repr, DecidableEq

/-- Callbacks this program hands to `GLib.idle_add`. -/
inductive IdleCallback where
  | showErrorCb (message : String)
  | pollStatusOnceCb
  deriving Repr, DecidableEq

/-- Callbacks this program hands to `GLib.timeout_add`. -/
inductive TimerCallback where
  | pollStatusCb
  deriving Repr, DecidableEq

/-- Side effects issued by the controller, in program order.
`runWait` is an awaited `subprocess.run` (output captured, return code
available to the caller); `spawnNoWait` is `subprocess.Popen` with no wait and
no inspection of the child.  `showConfirmDialog` is the modal
OK/Cancel warning of `_show_persistent_warning`.  `scheduleTimeoutMs` and
`scheduleIdle` are `GLib.timeout_add` / `GLib.idle_add`. -/
inductive Effect where
  | runWait (args : List String) (timeoutSec : Nat)
  | spawnNoWait (args : List String)
  | showConfirmDialog
  | scheduleTimeoutMs (ms : Nat) (cb : TimerCallback)
  | scheduleIdle (cb : IdleCallback)
  deriving Repr, DecidableEq

/-- Python `a or b` on strings: the left operand unless it is falsy (empty). -/
def orElseStr (a b : String) : String := if a != "" then a else b

/-- The whitespace characters Python str.strip() removes (ASCII part; the
captured outputs are ordinary text). -/
def pyWhitespace (c : Char) : Bool :=
  c = ' ' || c = '\t' || c = '\n' || c = '\r' || c = '\x0b' || c = '\x0c'

/-- Python str.strip() with no argument: remove leading and trailing
whitespace. -/
def pyStrip (s : String) : String :=
  String.mk (((s.data.dropWhile pyWhitespace).reverse.dropWhile pyWhitespace).reverse)

/-- The first half of `CameraRelaySystray._on_toggle`, run on the main thread:
choose the action from the current `self.running` and put the toggle item into
its pending presentation (`"Stopping..."` / `"Starting..."`, insensitive). -/
def on_toggle_dispatch (st : ControllerState) : String × MenuItem :=
  let action := if truthy st.running then "stop" else "start"
  (action, { label := if truthy st.running then "Stopping..." else "Starting...",
             sensitive := false })

/-- The effects `_run_action` issues after its `subprocess.run` call settles
with outcome `o`: on a non-zero return code, schedule an error dialog built
from `result.stderr.strip() or result.stdout.strip() or "Unknown error"`; on
`TimeoutExpired` or any other exception, schedule the corresponding error
dialog; in every case finally schedule `_poll_status_once`. -/
def actionCompletionEffects (action : String) (o : ActionOutcome) : List Effect :=
  match o with
  | .completed rc out err =>
    if rc != 0 then
      let error := orElseStr (pyStrip err) (orElseStr (pyStrip out) "Unknown error")
      [.scheduleIdle (.showErrorCb ("Failed to " ++ action ++ " relay:\n\n" ++ error)),
       .scheduleIdle .pollStatusOnceCb]
    else
      [.scheduleIdle .pollStatusOnceCb]
  | .timeoutExpired =>
    [.scheduleIdle (.showErrorCb ("Timed out trying to " ++ action ++ " relay")),
     .scheduleIdle .pollStatusOnceCb]
  | .raised msg =>
    [.scheduleIdle (.showErrorCb ("Error: " ++ msg)),
     .scheduleIdle .pollStatusOnceCb]

/-- The whole effect trace of the worker thread `_run_action`: the awaited
invocation `subprocess.run([RELAY_CMD, action], ..., timeout=15)` whose
outcome is `o`, followed by the completion effects. -/
def actionWorkerEffects (action : String) (o : ActionOutcome) : List Effect :=
  .runWait [RELAY_CMD, action] 15 :: actionCompletionEffects action o

/-- `CameraRelaySystray._poll_status_once`, applied to the toggle item and the
outcome `o` of the status query it performs.  It first calls `_poll_status`;
only if that returns normally does it reach `set_sensitive(True)`.  The second
component is the Python return value handed back to GLib (`some false`, i.e.
do not repeat), or `none` when `_poll_status` raised and the exception
escaped the callback before the return. -/
def poll_status_once (item : MenuItem) (o : StatusQueryOutcome) :
    MenuItem × Option Bool :=
  match poll_status o with
  | .ok r => ({ label := r.view.toggleLabel, sensitive := true }, some false)
  | .error _ => (item, none)

/-- Main-loop execution of one idle callback scheduled by `_run_action`:
`_show_error` appends a modal dialog (collected as its message text) and
leaves the toggle item alone; `_poll_status_once` updates the item using the
outcome `repoll` of the status query it performs. -/
def runIdleCallback (repoll : StatusQueryOutcome) (acc : MenuItem × List String) :
    IdleCallback → MenuItem × List String
  | .showErrorCb m => (acc.1, acc.2 ++ [m])
  | .pollStatusOnceCb => ((poll_status_once acc.1 repoll).1, acc.2)

/-- One dispatched start/stop action from click to settlement: the toggle item
goes to its pending presentation, the worker settles with outcome `o`, and the
scheduled idle callbacks run in order on the main loop (the re-poll inside
`_poll_status_once` observing `repoll`).  Result: the final toggle item and
the error dialogs shown. -/
def settleToggle (st : ControllerState) (o : ActionOutcome)
    (repoll : StatusQueryOutcome) : MenuItem × List String :=
  let dispatched := on_toggle_dispatch st
  (actionWorkerEffects dispatched.1 o).foldl
    (fun acc e =>
      match e with
      | .scheduleIdle cb => runIdleCallback repoll acc cb
      | _ => acc)
    (dispatched.2, [])

/-- User response to the modal OK/Cancel warning dialog. -/
inductive DialogResponse where
  | ok
  | cancel
  deriving Repr, DecidableEq

/-- `CameraRelaySystray._show_persistent_warning` after the dialog returned
`resp`: on OK, launch `enable-persistent --yes` without waiting and schedule a
1000 ms timeout running `_poll_status`; on Cancel, nothing. -/
def show_persistent_warning (resp : DialogResponse) : List Effect :=
  match resp with
  | .ok => [.spawnNoWait [RELAY_CMD, "enable-persistent", "--yes"],
            .scheduleTimeoutMs 1000 .pollStatusCb]
  | .cancel => []

/-- `CameraRelaySystray._on_persistent_toggle`: when `self.persistent` is
truthy, launch `disable-persistent` without waiting and schedule a 1000 ms
timeout running `_poll_status`; otherwise show the warning dialog and continue
as `_show_persistent_warning` with the response `resp` the user would give. -/
def on_persistent_toggle (st : ControllerState) (resp : DialogResponse) :
    List Effect :=
  if truthy st.persistent then
    [.spawnNoWait [RELAY_CMD, "disable-persistent"],
     .scheduleTimeoutMs 1000 .pollStatusCb]
  else
    .showConfirmDialog :: show_persistent_warning resp

/-- GLib timeout-source semantics: after a fire, the source stays armed and
fires again after the same interval exactly when the callback returned a
truthy value; a falsy return removes the source. -/
def glibTimeoutFiresAgain (callbackResult : Bool) : Bool := callbackResult

/-- Python return value of one fire of a callback passed to
`GLib.timeout_add`, given the status-query outcome `o` that fire observes:
`_poll_status` returns `True` on normal completion (`some true`), and `none`
when it raises (the exception escapes the callback). -/
def timerCallbackResult (cb : TimerCallback) (o : StatusQueryOutcome) :
    Option Bool :=
  match cb with
  | .pollStatusCb =>
    match poll_status o with
    | .ok r => some r.keepPolling
    | .error _ => none

/-- Python truthiness of `os.environ.get(name)`: falsy when the variable is
absent (`None`) or set to the empty string. -/
def envTruthy : Option String → Bool
  | none => false
  | some s => s != ""

/-- Environment the module-level startup code observes: the two display
variables and whether `fcntl.flock(..., LOCK_EX | LOCK_NB)` on the lock file
succeeds (it raises `OSError` when another process holds the lock). -/
structure StartupEnv where
  display : Option String
  waylandDisplay : Option String
  lockAcquired : Bool
  deriving Repr, DecidableEq

/-- Result of the module-level startup checks: `exitCode = some c` means
`sys.exit(c)` was reached after printing `stderrLines`; `none` means the
program proceeded to build the indicator. -/
structure StartupResult where
  exitCode : Option Nat
  stderrLines : List String
  deriving Repr, DecidableEq

/-- The module-level early-exit logic (source lines 11 to 24): no display
variable set (or both falsy) prints a diagnostic and exits 0; a held
single-instance lock prints a diagnostic and exits 0; otherwise start up. -/
def startupChecks (env : StartupEnv) : StartupResult :=
  if !envTruthy env.display && !envTruthy env.waylandDisplay then
    { exitCode := some 0,
      stderrLines := ["camera-relay-systray: No display detected, exiting."] }
  else if !env.lockAcquired then
    { exitCode := some 0,
      stderrLines := ["camera-relay-systray: Another instance is already running."] }
  else
    { exitCode := none, stderrLines := [] }

/-! Helper lemmas shared by the claim theorems. -/

/-- The embedded `dict.get` agrees with association-list lookup with a
default. -/
theorem dictGet_eq_lookup (fields : List (String × Json)) (key : String)
    (dflt : Json) : dictGet fields key dflt = (fields.lookup key).getD dflt := by
  induction fields with
  | nil => rfl
  | cons kv rest ih =>
    obtain ⟨k, v⟩ := kv
    by_cases hk : k = key
    · subst hk
      simp [dictGet, List.lookup]
    · have hbeq : (key == k) = false := beq_eq_false_iff_ne.mpr (Ne.symm hk)
      simp [dictGet, hk, List.lookup, hbeq, ih]

/-- When the status query inside `_poll_status_once` completes normally, the
toggle item comes out sensitive. -/
theorem poll_status_once_sensitive_of_ok (item : MenuItem)
    (o : StatusQueryOutcome) (r : PollResult) (h : poll_status o = .ok r) :
    (poll_status_once item o).1.sensitive = true := by
  unfold poll_status_once
  rw [h]

/-- Shape of every normal `_poll_status` result: the labels, status line and
icon are the stated functions of the stored `running` / `persistent` values,
and the callback returns `True`. -/
theorem poll_status_ok_shape (o : StatusQueryOutcome) (r : PollResult)
    (h : poll_status o = .ok r) :
    r.view.toggleLabel
        = (if truthy r.state.running then "Stop Relay" else "Start Relay") ∧
    r.view.persistentLabel
        = (if truthy r.state.persistent then "Disable Persistent Mode"
           else "Enable Persistent Mode") ∧
    r.keepPolling = true := by
  cases o with
  | timeoutExpired =>
    have hr := Except.ok.inj h
    subst hr
    exact ⟨rfl, rfl, rfl⟩
  | fileNotFound =>
    have hr := Except.ok.inj h
    subst hr
    exact ⟨rfl, rfl, rfl⟩
  | completed rc stdoutJson =>
    cases stdoutJson with
    | none =>
      have hr := Except.ok.inj h
      subst hr
      exact ⟨rfl, rfl, rfl⟩
    | some j =>
      cases j with
      | null => exact absurd h (by simp [poll_status, get_status, statusQueryRun])
      | bool b => exact absurd h (by simp [poll_status, get_status, statusQueryRun])
      | num n => exact absurd h (by simp [poll_status, get_status, statusQueryRun])
      | str s => exact absurd h (by simp [poll_status, get_status, statusQueryRun])
      | arr elems => exact absurd h (by simp [poll_status, get_status, statusQueryRun])
      | obj fields =>
        have hr := Except.ok.inj h
        subst hr
        refine ⟨rfl, rfl, rfl⟩

/-! Claim theorems. -/

/-- C1: for every status-query outcome in which the external query times out,
the relay binary is missing, or the standard output fails to parse as JSON
(`json.JSONDecodeError`), `_get_status` returns exactly the default dictionary
with running false, persistent false, camera and device empty, and the
subsequent `_poll_status` completes normally (no exception is propagated) with
both stored fields false and the stopped presentation. -/
theorem c1_failed_query_default (o : StatusQueryOutcome)
    (h : o = .timeoutExpired ∨ o = .fileNotFound ∨ ∃ rc, o = .completed rc none) :
    get_status o = .ok defaultStatusDict ∧
    poll_status o = .ok { state := initState,
                          view := { toggleLabel := "Start Relay",
                                    persistentLabel := "Enable Persistent Mode",
                                    statusLabel := "Status: STOPPED",
                                    icon := "camera-disabled-symbolic" },
                          keepPolling := true } := by
  rcases h with h | h | ⟨rc, h⟩ <;> subst h <;> exact ⟨rfl, rfl⟩

/-- C1 witness: the timeout outcome, concretely. -/
theorem c1_witness :
    (StatusQueryOutcome.timeoutExpired = StatusQueryOutcome.timeoutExpired ∨
     StatusQueryOutcome.timeoutExpired = StatusQueryOutcome.fileNotFound ∨
     ∃ rc, StatusQueryOutcome.timeoutExpired = StatusQueryOutcome.completed rc none) ∧
    (get_status .timeoutExpired = .ok defaultStatusDict ∧
     poll_status .timeoutExpired =
       .ok { state := initState,
             view := { toggleLabel := "Start Relay",
                       persistentLabel := "Enable Persistent Mode",
                       statusLabel := "Status: STOPPED",
                       icon := "camera-disabled-symbolic" },
             keepPolling := true }) :=
  ⟨Or.inl rfl, c1_failed_query_default .timeoutExpired (Or.inl rfl)⟩

/-- C2 (code evaluation at the failing input): when the user confirms the
enable-persistent dialog, the effect trace holds exactly one
`enable-persistent --yes` launch and exactly one 1000 ms timeout schedule, and
cancelling yields neither — those parts of the claim hold.  But the scheduled
callback is `_poll_status`, which returns `True`, so under the GLib
timeout-source semantics the source is re-armed and the 1 s re-poll fires
again and again: the claim that the re-poll fires once, not repeatedly, fails
on the code (`_poll_status_once`, the one-shot variant returning `False`, is
not the callback used here). -/
theorem c2_confirm_one_spawn_but_repoll_repeats :
    on_persistent_toggle initState .ok =
      [.showConfirmDialog,
       .spawnNoWait [RELAY_CMD, "enable-persistent", "--yes"],
       .scheduleTimeoutMs 1000 .pollStatusCb] ∧
    on_persistent_toggle initState .cancel = [.showConfirmDialog] ∧
    timerCallbackResult .pollStatusCb (.completed 0 (some defaultStatusDict))
      = some true ∧
    glibTimeoutFiresAgain true = true :=
  ⟨rfl, rfl, rfl, rfl⟩

/-- C3 counterexample: the status process exits with return code 1 while
printing the JSON object with running true on standard output; the derived
status has running true (label "Stop Relay", status line RUNNING) — not the
default stopped status the claim requires for every non-zero exit. -/
theorem c3_counterexample :
    poll_status (.completed 1 (some (.obj [("running", .bool true),
                                           ("persistent", .bool false)]))) =
      .ok { state := { running := .bool true, persistent := .bool false },
            view := { toggleLabel := "Stop Relay",
                      persistentLabel := "Enable Persistent Mode",
                      statusLabel := "Status: RUNNING",
                      icon := "camera-video-symbolic" },
            keepPolling := true } := rfl

/-- C3 amended: the exit code of the status query is never inspected — the
derived status depends only on the parse of standard output.  A non-zero exit
yields the default stopped status exactly when the standard output fails to
parse as JSON; parsed output is honoured whatever the exit code. -/
theorem c3_amended_exit_code_not_inspected (rc : Int) (j : Option Json) :
    get_status (.completed rc none) = .ok defaultStatusDict ∧
    get_status (.completed rc j) = get_status (.completed 0 j) := by
  refine ⟨rfl, ?_⟩
  cases j <;> rfl

/-- C4 counterexample: two failed start actions that differ only in their
(non-zero) exit code — 3 versus 7 — produce identical effect traces, and the
dialog message is built from standard error alone: the surfaced dialog
carries no exit-code context, contradicting the claim that the message is
built from the exit code. -/
theorem c4_counterexample :
    actionCompletionEffects "start" (.completed 3 "" "boom") =
      actionCompletionEffects "start" (.completed 7 "" "boom") ∧
    actionCompletionEffects "start" (.completed 3 "" "boom") =
      [.scheduleIdle (.showErrorCb "Failed to start relay:\n\nboom"),
       .scheduleIdle .pollStatusOnceCb] :=
  ⟨rfl, by decide⟩

/-- C4 amended: for every start/stop action completing with a non-zero exit
code, an error dialog is scheduled whose message is built from the action name
and from stripped standard error, falling back to stripped standard output and
then to "Unknown error"; the exit code only decides that the dialog appears
and its value is not part of the message. -/
theorem c4_amended_error_message_from_streams (action : String) (rc : Int)
    (out err : String) (h : rc ≠ 0) :
    actionCompletionEffects action (.completed rc out err) =
      [.scheduleIdle (.showErrorCb ("Failed to " ++ action ++ " relay:\n\n" ++
          orElseStr (pyStrip err) (orElseStr (pyStrip out) "Unknown error"))),
       .scheduleIdle .pollStatusOnceCb] := by
  simp [actionCompletionEffects, h]

/-- C4 witness: exit code 3, stderr "boom". -/
theorem c4_witness :
    (3 : Int) ≠ 0 ∧
    actionCompletionEffects "start" (.completed 3 "" "boom") =
      [.scheduleIdle (.showErrorCb ("Failed to " ++ "start" ++ " relay:\n\n" ++
          orElseStr (pyStrip "boom") (orElseStr (pyStrip "") "Unknown error"))),
       .scheduleIdle .pollStatusOnceCb] :=
  ⟨by decide, c4_amended_error_message_from_streams "start" 3 "" "boom" (by decide)⟩

/-- C5 counterexample: a start action settles with the success outcome
(return code 0), but the post-action re-poll inside `_poll_status_once` finds
the status binary printing the valid JSON text "null" — `json.loads` succeeds,
`status.get` raises `AttributeError`, and the `set_sensitive(True)` line is
never reached: the toggle item stays insensitive with its transitional label,
refuting the claim that the control is unconditionally re-enabled after every
settled action. -/
theorem c5_counterexample :
    settleToggle initState (.completed 0 "" "") (.completed 0 (some .null)) =
      ({ label := "Starting...", sensitive := false }, []) :=
  rfl

/-- C5 amended: while the action is in flight the toggle control is disabled
with a transitional label, and after the action settles — for all three
outcomes: success, non-zero exit, timeout (and any other exception) — the
control is re-enabled, provided the status query performed by the post-action
re-poll completes normally (its output parses to a JSON object, or it fails in
one of the three soft-failure ways); when that re-poll itself raises, the
re-enabling line is never reached and the control stays disabled. -/
theorem c5_amended_reenabled_when_repoll_ok (st : ControllerState)
    (o : ActionOutcome) (repoll : StatusQueryOutcome) (r : PollResult)
    (h : poll_status repoll = .ok r) :
    (on_toggle_dispatch st).2.sensitive = false ∧
    (settleToggle st o repoll).1.sensitive = true := by
  refine ⟨rfl, ?_⟩
  have honce : ∀ item : MenuItem, (poll_status_once item repoll).1.sensitive = true :=
    fun item => poll_status_once_sensitive_of_ok item repoll r h
  unfold settleToggle actionWorkerEffects
  cases o with
  | completed rc out err =>
    unfold actionCompletionEffects
    by_cases hrc : rc = 0
    · simp [hrc, List.foldl, runIdleCallback, honce]
    · simp [hrc, List.foldl, runIdleCallback, honce]
  | timeoutExpired =>
    simp [actionCompletionEffects, List.foldl, runIdleCallback, honce]
  | raised msg =>
    simp [actionCompletionEffects, List.foldl, runIdleCallback, honce]

/-- C5 witness: a timed-out stop action whose re-poll parses a proper status
object. -/
theorem c5_witness :
    poll_status (.completed 0 (some defaultStatusDict)) =
      .ok { state := initState,
            view := { toggleLabel := "Start Relay",
                      persistentLabel := "Enable Persistent Mode",
                      statusLabel := "Status: STOPPED",
                      icon := "camera-disabled-symbolic" },
            keepPolling := true } ∧
    ((on_toggle_dispatch initState).2.sensitive = false ∧
     (settleToggle initState .timeoutExpired
        (.completed 0 (some defaultStatusDict))).1.sensitive = true) :=
  ⟨rfl, c5_amended_reenabled_when_repoll_ok initState .timeoutExpired
    (.completed 0 (some defaultStatusDict)) _ rfl⟩

/-- C6: for every poll result that `_poll_status` publishes, the toggle label
is "Stop Relay" exactly when the stored running value is truthy, and
"Start Relay" otherwise. -/
theorem c6_toggle_label_iff (o : StatusQueryOutcome) (r : PollResult)
    (h : poll_status o = .ok r) :
    (r.view.toggleLabel = "Stop Relay" ↔ truthy r.state.running = true) ∧
    (truthy r.state.running = false → r.view.toggleLabel = "Start Relay") := by
  obtain ⟨hlabel, -, -⟩ := poll_status_ok_shape o r h
  cases ht : truthy r.state.running with
  | true =>
    rw [ht] at hlabel
    simp at hlabel
    simp [hlabel]
  | false =>
    rw [ht] at hlabel
    simp at hlabel
    simp [hlabel]

/-- C6 witness: a poll observing a running relay. -/
theorem c6_witness :
    (poll_status (.completed 0 (some (.obj [("running", .bool true)]))) =
      .ok { state := { running := .bool true, persistent := .bool false },
            view := { toggleLabel := "Stop Relay",
                      persistentLabel := "Enable Persistent Mode",
                      statusLabel := "Status: RUNNING",
                      icon := "camera-video-symbolic" },
            keepPolling := true }) ∧
    (({ state := { running := .bool true, persistent := .bool false },
        view := { toggleLabel := "Stop Relay",
                  persistentLabel := "Enable Persistent Mode",
                  statusLabel := "Status: RUNNING",
                  icon := "camera-video-symbolic" },
        keepPolling := true } : PollResult).view.toggleLabel = "Stop Relay" ↔
      truthy ({ state := { running := .bool true, persistent := .bool false },
                view := { toggleLabel := "Stop Relay",
                          persistentLabel := "Enable Persistent Mode",
                          statusLabel := "Status: RUNNING",
                          icon := "camera-video-symbolic" },
                keepPolling := true } : PollResult).state.running = true) :=
  ⟨rfl,
   (c6_toggle_label_iff (.completed 0 (some (.obj [("running", .bool true)])))
      _ rfl).1⟩

/-- C7: whenever the persistent-mode item is activated while the observed
persistent state is truthy, the effect trace is exactly one fire-and-forget
`disable-persistent` launch followed by the 1000 ms re-poll schedule: no
confirmation dialog is shown and exactly one disable invocation is made,
whatever the dialog response would have been. -/
theorem c7_disable_persistent_direct (st : ControllerState)
    (resp : DialogResponse) (h : truthy st.persistent = true) :
    on_persistent_toggle st resp =
      [.spawnNoWait [RELAY_CMD, "disable-persistent"],
       .scheduleTimeoutMs 1000 .pollStatusCb] ∧
    (on_persistent_toggle st resp).count
      (.spawnNoWait [RELAY_CMD, "disable-persistent"]) = 1 ∧
    Effect.showConfirmDialog ∉ on_persistent_toggle st resp := by
  have he : on_persistent_toggle st resp =
      [.spawnNoWait [RELAY_CMD, "disable-persistent"],
       .scheduleTimeoutMs 1000 .pollStatusCb] := by
    unfold on_persistent_toggle
    simp [h]
  refine ⟨he, ?_, ?_⟩
  · rw [he]; decide
  · rw [he]; decide

/-- C7 witness: persistent mode observed on. -/
theorem c7_witness :
    truthy ({ running := .bool false, persistent := .bool true } :
      ControllerState).persistent = true ∧
    (on_persistent_toggle { running := .bool false, persistent := .bool true }
       .ok =
      [.spawnNoWait [RELAY_CMD, "disable-persistent"],
       .scheduleTimeoutMs 1000 .pollStatusCb] ∧
     (on_persistent_toggle { running := .bool false, persistent := .bool true }
        .ok).count (.spawnNoWait [RELAY_CMD, "disable-persistent"]) = 1 ∧
     Effect.showConfirmDialog ∉
       on_persistent_toggle { running := .bool false, persistent := .bool true }
         .ok) :=
  ⟨rfl, c7_disable_persistent_direct
    { running := .bool false, persistent := .bool true } .ok rfl⟩

/-- C8: both module-level early exits terminate with success status 0 and a
single stderr diagnostic — when neither display variable is truthy, and also
when the single-instance lock is already held. -/
theorem c8_early_exit_success (env : StartupEnv)
    (h : (envTruthy env.display = false ∧ envTruthy env.waylandDisplay = false)
         ∨ env.lockAcquired = false) :
    (startupChecks env).exitCode = some 0 ∧
    (startupChecks env).stderrLines.length = 1 := by
  unfold startupChecks
  rcases h with ⟨hd, hw⟩ | hl
  · simp [hd, hw]
  · cases hd : (!envTruthy env.display && !envTruthy env.waylandDisplay) with
    | true => simp [hd]
    | false => simp [hd, hl]

/-- C8 witness: the no-display environment. -/
theorem c8_witness :
    ((envTruthy ({ display := none, waylandDisplay := none,
                   lockAcquired := true } : StartupEnv).display = false ∧
      envTruthy ({ display := none, waylandDisplay := none,
                   lockAcquired := true } : StartupEnv).waylandDisplay = false)
     ∨ ({ display := none, waylandDisplay := none,
          lockAcquired := true } : StartupEnv).lockAcquired = false) ∧
    ((startupChecks { display := none, waylandDisplay := none,
                      lockAcquired := true }).exitCode = some 0 ∧
     (startupChecks { display := none, waylandDisplay := none,
                      lockAcquired := true }).stderrLines.length = 1) :=
  ⟨Or.inl ⟨rfl, rfl⟩,
   c8_early_exit_success { display := none, waylandDisplay := none,
                           lockAcquired := true } (Or.inl ⟨rfl, rfl⟩)⟩

/-- C9: in every effect trace of the persistent-mode handlers — for every
controller state and every dialog response — there is no awaited invocation
(`subprocess.run`) and no error dialog: both persistent actions are launched
with `subprocess.Popen` and never waited on, and since the trace is a function
of the state and the response only, no outcome of the external process can be
inspected or surfaced. -/
theorem c9_persistent_fire_and_forget (st : ControllerState)
    (resp : DialogResponse) :
    (∀ args t, Effect.runWait args t ∉ on_persistent_toggle st resp) ∧
    (∀ m, Effect.scheduleIdle (.showErrorCb m) ∉ on_persistent_toggle st resp) := by
  unfold on_persistent_toggle show_persistent_warning
  cases hp : truthy st.persistent with
  | true => simp
  | false => cases resp <;> simp

/-- C9 witness: concrete state and response, concrete non-membership. -/
theorem c9_witness :
    Effect.runWait [RELAY_CMD, "enable-persistent", "--yes"] 15 ∉
      on_persistent_toggle initState .ok ∧
    Effect.scheduleIdle (.showErrorCb "Error") ∉
      on_persistent_toggle initState .ok :=
  ⟨(c9_persistent_fire_and_forget initState .ok).1
      [RELAY_CMD, "enable-persistent", "--yes"] 15,
   (c9_persistent_fire_and_forget initState .ok).2 "Error"⟩

/-- C10: for every successfully parsed JSON object, the two stored fields are
exactly lookup-with-default over the object fields: a missing "running" key
and a missing "persistent" key each independently come out as False, and a
key that is present in a partial object is honoured. -/
theorem c10_partial_object_defaults (fields : List (String × Json)) (rc : Int) :
    ∃ r, poll_status (.completed rc (some (.obj fields))) = .ok r ∧
      r.state.running = (fields.lookup "running").getD (.bool false) ∧
      r.state.persistent = (fields.lookup "persistent").getD (.bool false) := by
  refine ⟨_, rfl, ?_, ?_⟩ <;>
    simp [dictGet_eq_lookup]

end CameraRelaySystray
